import Mathlib

/-!
Shallow embedding of the Commvault Cloud Splunk SOAR connector
(`commvaultcloud_connector.py` together with `commvaultcloud_consts.py`).

Modeling conventions:
* Python `None` is `Option.none`; a JSON field that `dict.get` may miss is an
  `Option` field of the corresponding structure.
* A Python exception is `Except.error (e : PyErr)`; code that cannot raise is
  a plain function.
* REST traffic is modeled by an explicit environment `Env` that maps each
  request the connector can issue to the body `_make_rest_call` would hand
  back; `none` stands for a transport-level failure or error classification,
  where `_make_rest_call` returns an error status together with a `None` body.
* Every regex used by the connector has the literal shape `LIT1(.*?)LIT2`
  with exactly one capturing group; such a pattern is a `DelimPattern` and
  `re.search(pattern, msg, re.IGNORECASE)` is modeled by `reSearchCI`
  (leftmost occurrence of `LIT1`, then the shortest capture not crossing a
  newline after which `LIT2` matches, all compared ASCII-case-insensitively).
-/

/-- Python exception kinds raised by the translated code. -/
inductive PyErr where
  | valueError
  | keyError
  | attributeError
  | typeError
  | indexError
deriving DecidableEq, Repr

deriving instance DecidableEq for Except

/-- ASCII lowercasing on code points, the case folding `re.IGNORECASE`
performs on the ASCII letters appearing in the connector's patterns. -/
def lowerN (n : Nat) : Nat := if 65 ≤ n ∧ n ≤ 90 then n + 32 else n

/-- Python `str.isspace` on the ASCII whitespace characters recognised by
`str.strip()`. -/
def isPySpace (c : Char) : Bool :=
  c == ' ' || c == '\t' || c == '\n' || c == '\r' || c == '\x0b' || c == '\x0c'

/-- Python `str.strip()` on the underlying character list. -/
def pyStripList (l : List Char) : List Char :=
  ((l.dropWhile isPySpace).reverse.dropWhile isPySpace).reverse

/-- Python `str.strip()`. -/
def pyStrip (s : String) : String := String.mk (pyStripList s.data)

/-- Case-insensitive test that the literal `pat` is a prefix of the text. -/
def startsWithCI : List Char → List Char → Bool
  | [], _ => true
  | _ :: _, [] => false
  | p :: ps, c :: cs => (lowerN p.toNat == lowerN c.toNat) && startsWithCI ps cs

/-- The `(.*?)` capture of a pattern `LIT1(.*?)LIT2`: the shortest run of
non-newline characters after which the literal `post` matches
(`.` does not match a newline without `re.DOTALL`). -/
def lazyCapture (post : List Char) : List Char → Option (List Char)
  | [] => if startsWithCI post [] then some [] else none
  | c :: cs =>
    if startsWithCI post (c :: cs) then some []
    else if c == '\n' then none
    else (lazyCapture post cs).map (fun t => c :: t)

/-- `re.search` of `pre(.*?)post` with `re.IGNORECASE`: try each start
position left to right; at the first position where `pre` matches and a
capture closed by `post` exists, return that (shortest) capture. -/
def reSearchList (pre post : List Char) : List Char → Option (List Char)
  | [] => if startsWithCI pre [] then lazyCapture post [] else none
  | c :: cs =>
    match (if startsWithCI pre (c :: cs) then
             lazyCapture post (List.drop pre.length (c :: cs))
           else none) with
    | some cap => some cap
    | none => reSearchList pre post cs

/-- A connector regex `pre(.*?)post` with both delimiters literal and exactly
one capturing group. -/
structure DelimPattern where
  pre : String
  post : String
deriving DecidableEq, Repr

/-- `re.search(pattern, msg, re.IGNORECASE)` restricted to the connector's
pattern shape; `some g` is a match whose group 1 captured `g`. -/
def reSearchCI (p : DelimPattern) (msg : String) : Option String :=
  (reSearchList p.pre.data p.post.data msg.data).map (fun l => String.mk l)

/-- Digit tail of a Python integer literal: digits with single underscores
allowed strictly between digits, accumulating the value. -/
def parseDigitTail : Nat → List Char → Option Nat
  | acc, [] => some acc
  | _, '_' :: [] => none
  | acc, '_' :: c :: rest =>
    if c.isDigit then parseDigitTail (10 * acc + (c.toNat - 48)) rest else none
  | acc, c :: rest =>
    if c.isDigit then parseDigitTail (10 * acc + (c.toNat - 48)) rest else none

/-- A Python integer literal must start with a digit after the sign. -/
def parseDigitStart : List Char → Option Nat
  | [] => none
  | c :: rest => if c.isDigit then parseDigitTail (c.toNat - 48) rest else none

/-- Python `int(s)` on a string: surrounding whitespace stripped, optional
sign, decimal digits with underscores between digits; `none` when `int`
would raise `ValueError`. -/
def pyToInt (s : String) : Option Int :=
  match pyStripList s.data with
  | '+' :: rest => (parseDigitStart rest).map (fun n => (n : Int))
  | '-' :: rest => (parseDigitStart rest).map (fun n => -(n : Int))
  | l => (parseDigitStart l).map (fun n => (n : Int))

/-- First index of the literal `needle` in the text, case-sensitively:
Python `str.find` (as an `Option` instead of `-1`) and the `in` test. -/
def litStarts : List Char → List Char → Bool
  | [], _ => true
  | _ :: _, [] => false
  | a :: as, b :: bs => (a == b) && litStarts as bs

/-- See `litStarts`; `findSub needle hay` is Python `hay.find(needle)`. -/
def findSub (needle : List Char) : List Char → Option Nat
  | [] => if litStarts needle [] then some 0 else none
  | c :: t =>
    if litStarts needle (c :: t) then some 0
    else (findSub needle t).map (fun n => n + 1)

/-- Python `s.find(sub)` as an `Option Nat`. -/
def pyFind (s sub : String) : Option Nat := findSub sub.data s.data

/-- Python slice `s[a:b]` for non-negative bounds (empty when `b ≤ a`). -/
def pySlice (s : String) (a b : Nat) : String :=
  String.mk ((s.data.drop a).take (b - a))

namespace Constants

def EVENT_ID : String := "event_id"
def EVENT_TIME : String := "event_time"
def ANOMALY_SUB_TYPE : String := "anomaly_sub_type"
def ORIGINATING_CLIENT : String := "originating_client"
def ORIGINATING_PROGRAM : String := "originating_program"
def JOB : String := "job"
def JOB_ID : String := "job_id"
def AFFECTED_FILES_COUNT : String := "affected_files_count"
def MODIFIED_FILES_COUNT : String := "modified_files_count"
def DELETED_FILES_COUNT : String := "deleted_files_count"
def RENAMED_FILES_COUNT : String := "renamed_files_count"
def CREATED_FILES_COUNT : String := "created_files_count"
def FACILITY : String := "Commvault"
def PATH_KEY : String := "path"
def DESCRIPTION : String := "description"
def SEVERITY : String := "severity"
def SEVERITY_HIGH : String := "high"
def SEVERITY_MEDIUM : String := "medium"
def SEVERITY_LOW : String := "low"
def ANOMALY_TYPE_1 : String := "File Activity"
def ANOMALY_TYPE_2 : String := "File Type"
def ANOMALY_TYPE_3 : String := "Threat Analysis"
def ANOMALY_TYPE_UNDEFINED : String := "Undefined"
def SUPPORTED_EVENT_CODES : List String := ["14:337"]

end Constants

/-- `field_mapper`: the incoming-field lookup table. The Python dict lookup
would raise `KeyError` for a name outside the table; every call site uses a
key of the table, so the fallback `""` branch is unreachable. -/
def field_mapper (field_name : String) : String :=
  if field_name = Constants.EVENT_TIME then "timeSource"
  else if field_name = Constants.EVENT_ID then "id"
  else if field_name = Constants.ORIGINATING_PROGRAM then "subsystem"
  else if field_name = Constants.ANOMALY_SUB_TYPE then "AnomalyType"
  else if field_name = Constants.JOB then "job"
  else if field_name = Constants.JOB_ID then "JobId"
  else if field_name = Constants.ORIGINATING_CLIENT then "client"
  else if field_name = Constants.AFFECTED_FILES_COUNT then "SuspiciousFileCount"
  else if field_name = Constants.MODIFIED_FILES_COUNT then "Modified"
  else if field_name = Constants.RENAMED_FILES_COUNT then "Renamed"
  else if field_name = Constants.CREATED_FILES_COUNT then "Created"
  else if field_name = Constants.DELETED_FILES_COUNT then "Deleted"
  else ""

/-- `get_backup_anomaly`: anomaly id to anomaly type, `Undefined` as the
`dict.get` default for unknown ids. -/
def get_backup_anomaly (anomaly_id : Int) : String :=
  if anomaly_id = 0 then Constants.ANOMALY_TYPE_UNDEFINED
  else if anomaly_id = 1 then Constants.ANOMALY_TYPE_1
  else if anomaly_id = 2 then Constants.ANOMALY_TYPE_2
  else if anomaly_id = 3 then Constants.ANOMALY_TYPE_3
  else Constants.ANOMALY_TYPE_UNDEFINED

/-- `define_severity`: severity from anomaly sub type (`None` otherwise). -/
def define_severity (anomaly_sub_type : String) : Option String :=
  if anomaly_sub_type = "File Type" ∨ anomaly_sub_type = "Threat Analysis" then
    some Constants.SEVERITY_HIGH
  else if anomaly_sub_type = "File Activity" then
    some Constants.SEVERITY_MEDIUM
  else none

/-- `extract_from_regex(message, default_value, *regex_string_args)`: try the
patterns in order with `re.search(..., re.IGNORECASE)`; on the first match
return group 1 stripped, otherwise the default. Each modeled pattern has
exactly one always-participating group, so the source's
`len(matches.groups()) > 0` test is always true on a match. The default may
be Python `None`, hence `Option String`. -/
def extract_from_regex (message : String) (default_value : Option String) :
    List DelimPattern → Option String
  | [] => default_value
  | p :: ps =>
    match reSearchCI p message with
    | some g => some (pyStrip g)
    | none => extract_from_regex message default_value ps

/-- `if_zero_set_none(value)`: `None` on a falsy value (`None` or `""`),
otherwise `int(value)` — raising `ValueError` on a non-literal — and the
original string when the parsed value is positive. -/
def if_zero_set_none (value : Option String) : Except PyErr (Option String) :=
  match value with
  | none => .ok none
  | some s =>
    if s = "" then .ok none
    else
      match pyToInt s with
      | none => .error PyErr.valueError
      | some n => if n > 0 then .ok (some s) else .ok none

/-- `format_alert_description(msg)`: narrow an `<html>…</html>` message to
the `Detected …`/`Possible …` sentence, else return the message unchanged. -/
def format_alert_description (msg : String) : String :=
  let default_value := msg
  match pyFind msg "<html>", pyFind msg "</html>" with
  | some i, some j =>
    let m := pyStrip (pySlice msg (i + 6) j)
    match pyFind m "Detected ", pyFind m " Please click " with
    | some a, some b => pySlice m a b
    | _, _ =>
      match pyFind m "Possible ", pyFind m "<span style=" with
      | some a, some b => pySlice m a b
      | _, _ => default_value
  | _, _ => default_value

example : reSearchCI ⟨"AnomalyType:[", "]"⟩ "x AnomalyType:[3] y" = some "3" := by decide
example : reSearchCI ⟨"AnomalyType:[", "]"⟩ "anomalytype:[ 7 ]" = some " 7 " := by decide
example : extract_from_regex "AnomalyType:[3]" (some "0") [⟨"AnomalyType:[", "]"⟩] = some "3" := by
  decide
example : extract_from_regex "nothing" (some "0") [⟨"AnomalyType:[", "]"⟩] = some "0" := by decide
example : pyToInt " -12 " = some (-12) := by decide
example : pyToInt "1_0" = some 10 := by decide
example : pyToInt "abc" = none := by decide
example : pyToInt "" = none := by decide
example : format_alert_description "<html>Detected bad stuff. Please click here</html>" =
    "Detected bad stuff." := by decide

/-- Days-since-epoch to a civil (year, month, day) date, proleptic
Gregorian, as `datetime.utcfromtimestamp` computes it. -/
def civilFromDays (z : Int) : Int × Nat × Nat :=
  let za := z + 719468
  let era := Int.fdiv za 146097
  let doe := (za - era * 146097).toNat
  let yoe := (doe - doe / 1460 + doe / 36524 - doe / 146096) / 365
  let y := era * 400 + (yoe : Int)
  let doy := doe - (365 * yoe + yoe / 4 - yoe / 100)
  let mp := (5 * doy + 2) / 153
  let d := doy - (153 * mp + 2) / 5 + 1
  let m := if mp < 10 then mp + 3 else mp - 9
  (if m ≤ 2 then y + 1 else y, m, d)

/-- Two-digit zero padding of `strftime`'s `%m %d %H %M %S`. -/
def pad2 (n : Nat) : String := if n < 10 then "0" ++ toString n else toString n

/-- `datetime.utcfromtimestamp(epoch).strftime("%Y-%m-%d %H:%M:%S")`. -/
def formatUtc (epoch : Int) : String :=
  let days := Int.fdiv epoch 86400
  let sod := (epoch - days * 86400).toNat
  let c := civilFromDays days
  toString c.1 ++ "-" ++ pad2 c.2.1 ++ "-" ++ pad2 c.2.2 ++ " " ++
    pad2 (sod / 3600) ++ ":" ++ pad2 (sod % 3600 / 60) ++ ":" ++ pad2 (sod % 60)

example : formatUtc 0 = "1970-01-01 00:00:00" := by decide
example : formatUtc 3600 = "1970-01-01 01:00:00" := by decide
example : formatUtc 1000 = "1970-01-01 00:16:40" := by decide

/-- One record of the `commservEvents` feed, with the fields
`_fetch_incidents` reads (always present in the feed). -/
structure RawEvent where
  eventCodeString : String
  timeSource : Int
  id : Int
  subsystem : String
  description : String
deriving DecidableEq, Repr

/-- Body of a `GET /events` response. -/
structure EventsResp where
  commservEvents : Option (List RawEvent)
deriving DecidableEq, Repr

/-- The query string `get_events` builds:
`/events?level=10&showInfo=false&showMinor=…&showMajor=…&showCritical=…`
plus `&fromTime=…&toTime=…`. -/
structure EventsQuery where
  showMinor : String
  showMajor : String
  showCritical : String
  fromTime : Int
  toTime : Int
deriving DecidableEq, Repr

/-- `subclient` object inside a job summary. -/
structure SubclientRef where
  subclientId : Option Int
deriving DecidableEq, Repr

/-- `jobSummary` object of a `GET /Job/{id}` response. -/
structure JobSummary where
  jobStartTime : Option Int
  jobEndTime : Option Int
  subclient : Option SubclientRef
deriving DecidableEq, Repr

/-- One entry of the `jobs` array. -/
structure JobEntry where
  jobSummary : Option JobSummary
deriving DecidableEq, Repr

/-- Body of a `GET /Job/{id}` response. -/
structure JobResp where
  totalRecordsWithoutPaging : Option Int
  jobs : Option (List JobEntry)
deriving DecidableEq, Repr

/-- One entry of a subclient's `content` array. -/
structure ContentEntry where
  path : Option String
deriving DecidableEq, Repr

/-- One entry of `subClientProperties`. -/
structure SubclientProps where
  content : Option (List ContentEntry)
deriving DecidableEq, Repr

/-- Body of a `GET /Subclient/{id}` response. -/
structure SubclientResp where
  subClientProperties : Option (List SubclientProps)
deriving DecidableEq, Repr

/-- One row of a browse `dataResultSet`. -/
structure DataResult where
  path : Option String
  size : Option Int
  displayName : Option String
  displayPath : Option String
deriving DecidableEq, Repr

/-- `browseResult` object. -/
structure BrowseResult where
  dataResultSet : Option (List DataResult)
deriving DecidableEq, Repr

/-- One entry of `browseResponses`. -/
structure BrowseItem where
  respType : Option Int
  browseResult : Option BrowseResult
deriving DecidableEq, Repr

/-- Body of a `POST /DoBrowse` response. -/
structure BrowseResp where
  browseResponses : Option (List BrowseItem)
deriving DecidableEq, Repr

/-- The dict `get_files_list` builds per browse row. `fullPath` is
`some v` when the key was written (only for the File Type anomaly, with
value `v` the row's `displayPath`, itself possibly `None`), and `none`
when the key is absent, so that `d['fullPath']` can raise `KeyError`. -/
structure FileEntry where
  sizeinkb : Option Int
  folder : String
  filename : Option String
  fullPath : Option (Option String)
deriving DecidableEq, Repr

/-- The environment standing for the backup platform's REST surface plus
the host clock: each field maps a request to the parsed body
`_make_rest_call` yields, `none` being a transport failure / error result
(whose body is `None`). `browseResp` is keyed by the anomaly sub type
(selecting the per-type base64 payload template) and the `jobId` injected
into that template. `now` is the current UTC epoch (`datetime.utcnow()`);
`tzOffset` is the host's fixed UTC offset in seconds, through which the
local-time functions `datetime.fromtimestamp` and `astimezone()` are
modeled. -/
structure Env where
  jobResponse : Option String → Option JobResp
  subclientResp : Option Int → Option SubclientResp
  browseResp : String → Int → Option BrowseResp
  eventsResp : EventsQuery → Option EventsResp
  now : Int
  tzOffset : Int

/-- Python `value != 0` on an optional int: `None != 0` is `True`. -/
def pyNeqZero : Option Int → Bool
  | none => true
  | some n => n != 0

/-- `get_job_details(job_id)`: `GET /Job/{id}`; a `None` body makes
`"totalRecordsWithoutPaging" in response` raise `TypeError`; zero total
records (or a missing key) is "job not found" (`None`), not an error. -/
def get_job_details (env : Env) (job_id : Option String) :
    Except PyErr (Option JobResp) :=
  match env.jobResponse job_id with
  | none => .error PyErr.typeError
  | some resp =>
    match resp.totalRecordsWithoutPaging with
    | none => .ok none
    | some n => if n > 0 then .ok (some resp) else .ok none

/-- `job_details.get("jobs", [{}])[0].get("jobSummary", {})`: indexing an
empty present `jobs` array raises `IndexError`. -/
def firstJobSummary (r : JobResp) : Except PyErr JobSummary :=
  match r.jobs.getD [{ jobSummary := none }] with
  | [] => .error PyErr.indexError
  | j :: _ => .ok (j.jobSummary.getD { jobStartTime := none, jobEndTime := none, subclient := none })

/-- `int(….get("jobStartTime"))`: `int(None)` raises `TypeError`. -/
def jobStartTimeOf (r : JobResp) : Except PyErr Int :=
  match firstJobSummary r with
  | .error e => .error e
  | .ok s =>
    match s.jobStartTime with
    | none => .error PyErr.typeError
    | some t => .ok t

/-- `int(….get("jobEndTime"))`, as `jobStartTimeOf`. -/
def jobEndTimeOf (r : JobResp) : Except PyErr Int :=
  match firstJobSummary r with
  | .error e => .error e
  | .ok s =>
    match s.jobEndTime with
    | none => .error PyErr.typeError
    | some t => .ok t

/-- `….get("subclient", {}).get("subclientId")`. -/
def subclientIdOf (r : JobResp) : Except PyErr (Option Int) :=
  match firstJobSummary r with
  | .error e => .error e
  | .ok s => .ok ((s.subclient.getD { subclientId := none }).subclientId)

/-- `get_subclient_content_list(subclient_id)`: `GET /Subclient/{id}`; a
`None` body makes `response.get` raise `AttributeError`; an empty present
`subClientProperties` raises `IndexError`. -/
def get_subclient_content_list (env : Env) (subclient_id : Option Int) :
    Except PyErr (Option (List ContentEntry)) :=
  match env.subclientResp subclient_id with
  | none => .error PyErr.attributeError
  | some resp =>
    match resp.subClientProperties.getD [{ content := none }] with
    | [] => .error PyErr.indexError
    | p :: _ => .ok p.content

/-- Python `s.split(sep)` for a one-character separator, on the
underlying list (`"".split(sep)` is `[""]`, trailing separators produce
trailing empty components — as in Python). -/
def splitOnChar (sep : Char) : List Char → List (List Char)
  | [] => [[]]
  | c :: cs =>
    if c == sep then [] :: splitOnChar sep cs
    else
      match splitOnChar sep cs with
      | [] => [[c]]
      | h :: t => (c :: h) :: t

/-- Python `sep.join(parts)` for a one-character separator. -/
def joinWithChar (sep : Char) : List (List Char) → List Char
  | [] => []
  | [x] => x
  | x :: xs => x ++ sep :: joinWithChar sep xs

/-- The per-row dict of `get_files_list`: `folder` strips the trailing
filename from `path` (`"\\".join(filepath.split("\\")[:-1])`); the
`fullPath` key is written only for the File Type anomaly; a `None` `path`
makes `filepath.split` raise `AttributeError`. -/
def mkFileEntry (anomaly_sub_type : String) (d : DataResult) :
    Except PyErr FileEntry :=
  match d.path with
  | none => .error PyErr.attributeError
  | some fp =>
    .ok { sizeinkb := d.size
          folder := String.mk (joinWithChar '\\' ((splitOnChar '\\' fp.data).dropLast))
          filename := d.displayName
          fullPath :=
            if anomaly_sub_type = Constants.ANOMALY_TYPE_2 then some d.displayPath
            else none }

/-- The `browseResponses` loop of `get_files_list`: only entries with
`respType == 0` contribute (Python `None == 0` is `False`); a `respType`-0
entry without a `browseResult` makes `"dataResultSet" in browse_result`
raise `TypeError`. -/
def browseItemsToFiles (anomaly_sub_type : String) :
    List BrowseItem → Except PyErr (List FileEntry)
  | [] => .ok []
  | item :: rest =>
    if (match item.respType with | some n => n == 0 | none => false) then
      match item.browseResult with
      | none => .error PyErr.typeError
      | some br =>
        match br.dataResultSet with
        | none => browseItemsToFiles anomaly_sub_type rest
        | some rows =>
          match rows.mapM (mkFileEntry anomaly_sub_type) with
          | .error e => .error e
          | .ok files =>
            match browseItemsToFiles anomaly_sub_type rest with
            | .error e => .error e
            | .ok more => .ok (files ++ more)
    else browseItemsToFiles anomaly_sub_type rest

/-- `get_files_list(job_id, anomaly_sub_type)`: only File Type and Threat
Analysis have a browse payload (else an empty list without any call);
`int(job_id)` is injected into the decoded payload and can raise
`ValueError`; a `None` browse body yields the empty list. -/
def get_files_list (env : Env) (job_id : String) (anomaly_sub_type : String) :
    Except PyErr (List FileEntry) :=
  if anomaly_sub_type = Constants.ANOMALY_TYPE_2 ∨
      anomaly_sub_type = Constants.ANOMALY_TYPE_3 then
    match pyToInt job_id with
    | none => .error PyErr.valueError
    | some jid =>
      match env.browseResp anomaly_sub_type jid with
      | none => .ok []
      | some resp => browseItemsToFiles anomaly_sub_type (resp.browseResponses.getD [])
  else .ok []

/-- The folder loop of `fetch_file_details`: `resp["path"]` raises
`KeyError` when the key is missing. -/
def foldersOf : List ContentEntry → Except PyErr (List String)
  | [] => .ok []
  | e :: rest =>
    match e.path with
    | none => .error PyErr.keyError
    | some p =>
      match foldersOf rest with
      | .error err => .error err
      | .ok ps => .ok (p :: ps)

/-- `fetch_file_details(job_id, subclient_id, anomaly_sub_type)`: empty
pair when `job_id is None`; otherwise the browse file list plus the
subclient's configured content paths. -/
def fetch_file_details (env : Env) (job_id : Option String)
    (subclient_id : Option Int) (anomaly_sub_type : String) :
    Except PyErr (List FileEntry × List String) :=
  match job_id with
  | none => .ok ([], [])
  | some jid =>
    match get_files_list env jid anomaly_sub_type with
    | .error e => .error e
    | .ok files =>
      match get_subclient_content_list env subclient_id with
      | .error e => .error e
      | .ok none => .ok (files, [])
      | .ok (some entries) =>
        match foldersOf entries with
        | .error e => .error e
        | .ok folders => .ok (files, folders)

/-- Pattern for `rf"{field_mapper('anomaly_sub_type')}:\[(.*?)\]"`. -/
def anomalySubTypePattern : DelimPattern :=
  ⟨field_mapper Constants.ANOMALY_SUB_TYPE ++ ":[", "]"⟩

/-- Pattern for `rf"{field_mapper(Constants.JOB)} \[(.*?)\]"`. -/
def jobPattern : DelimPattern := ⟨field_mapper Constants.JOB ++ " [", "]"⟩

/-- Pattern for `rf"{field_mapper(Constants.JOB_ID)}:\[(.*?)\]"`. -/
def jobIdPattern : DelimPattern := ⟨field_mapper Constants.JOB_ID ++ ":[", "]"⟩

/-- Pattern for `r"{} \[(.*?)\]".format(field_mapper(ORIGINATING_CLIENT))`. -/
def clientPattern : DelimPattern :=
  ⟨field_mapper Constants.ORIGINATING_CLIENT ++ " [", "]"⟩

/-- Pattern for `r"{}:\[(.*?)\]".format(field_mapper(AFFECTED_FILES_COUNT))`. -/
def affectedPattern : DelimPattern :=
  ⟨field_mapper Constants.AFFECTED_FILES_COUNT ++ ":[", "]"⟩

/-- Pattern for `r"{}FileCount:\[(.*?)\]".format(field_mapper(MODIFIED_FILES_COUNT))`. -/
def modifiedPattern : DelimPattern :=
  ⟨field_mapper Constants.MODIFIED_FILES_COUNT ++ "FileCount:[", "]"⟩

/-- Pattern for the deleted-files counter, as `modifiedPattern`. -/
def deletedPattern : DelimPattern :=
  ⟨field_mapper Constants.DELETED_FILES_COUNT ++ "FileCount:[", "]"⟩

/-- Pattern for the renamed-files counter, as `modifiedPattern`. -/
def renamedPattern : DelimPattern :=
  ⟨field_mapper Constants.RENAMED_FILES_COUNT ++ "FileCount:[", "]"⟩

/-- Pattern for the created-files counter, as `modifiedPattern`. -/
def createdPattern : DelimPattern :=
  ⟨field_mapper Constants.CREATED_FILES_COUNT ++ "FileCount:[", "]"⟩

/-- Pattern for `"href='(.*?)'"`. -/
def hrefSinglePattern : DelimPattern := ⟨"href='", "'"⟩

/-- Pattern for `'href="(.*?)"'`. -/
def hrefDoublePattern : DelimPattern := ⟨"href=\"", "\""⟩

/-- The `files_list` value of the assembled details dict: a list of
browse-entry dicts in general, flattened to the bare `fullPath` values
(each possibly `None`) for the File Type / Threat Analysis anomalies. -/
inductive FilesListVal where
  | entries : List FileEntry → FilesListVal
  | paths : List (Option String) → FilesListVal
deriving DecidableEq, Repr

/-- The comprehension `[d['fullPath'] for d in files_list]`: `KeyError`
as soon as an entry lacks the `fullPath` key. -/
def listFullPaths : List FileEntry → Except PyErr (List (Option String))
  | [] => .ok []
  | f :: fs =>
    match f.fullPath with
    | none => .error PyErr.keyError
    | some v =>
      match listFullPaths fs with
      | .error e => .error e
      | .ok l => .ok (v :: l)

/-- One file-change counter of the details dict:
`if_zero_set_none(extract_from_regex(message, None, pattern))`. -/
def counterOf (message : String) (p : DelimPattern) : Except PyErr (Option String) :=
  if_zero_set_none (extract_from_regex message none [p])

/-- The `files_list` / `scanned_folder_list` branch of
`get_incident_details` (source lines 456–463): browse only when
`subclient_id != 0` in the Python sense (so also when it is `None`), and
flatten to `fullPath` values for Threat Analysis / File Type. -/
def filesBranch (env : Env) (anomaly_sub_type : String) (job_id : Option String)
    (subclient_id : Option Int) : Except PyErr (FilesListVal × List String) :=
  if pyNeqZero subclient_id then
    match fetch_file_details env job_id subclient_id anomaly_sub_type with
    | .error e => .error e
    | .ok fs =>
      if anomaly_sub_type = Constants.ANOMALY_TYPE_3 ∨
          anomaly_sub_type = Constants.ANOMALY_TYPE_2 then
        match listFullPaths fs.1 with
        | .error e => .error e
        | .ok paths => .ok (FilesListVal.paths paths, fs.2)
      else .ok (FilesListVal.entries fs.1, fs.2)
  else .ok (FilesListVal.entries [], [])

/-- The details dict assembled by `get_incident_details`. -/
structure Details where
  subclient_id : Option Int
  files_list : FilesListVal
  scanned_folder_list : List String
  anomaly_sub_type : String
  severity : Option String
  originating_client : Option String
  affected_files_count : Option String
  modified_files_count : Option String
  deleted_files_count : Option String
  renamed_files_count : Option String
  created_files_count : Option String
  job_start_time : String
  job_end_time : String
  job_id : Option String
  external_link : Option String
  description : String
deriving DecidableEq, Repr

/-- The tail of `get_incident_details` once the job lookup succeeded:
job times and subclient id out of the job details, the file/folder
lists, then the counter extractions (evaluated in the dict-literal
order, so the first `ValueError` among them raises). -/
def assemble_details (env : Env) (message : String) (anomaly_sub_type : String)
    (job_id : Option String) (jd : JobResp) (description : String) :
    Except PyErr Details :=
  match jobStartTimeOf jd with
  | .error e => .error e
  | .ok job_start_time =>
    match jobEndTimeOf jd with
    | .error e => .error e
    | .ok job_end_time =>
      match subclientIdOf jd with
      | .error e => .error e
      | .ok subclient_id =>
        match filesBranch env anomaly_sub_type job_id subclient_id with
        | .error e => .error e
        | .ok fl_sf =>
          match counterOf message affectedPattern with
          | .error e => .error e
          | .ok affected =>
            match counterOf message modifiedPattern with
            | .error e => .error e
            | .ok modified =>
              match counterOf message deletedPattern with
              | .error e => .error e
              | .ok deleted =>
                match counterOf message renamedPattern with
                | .error e => .error e
                | .ok renamed =>
                  match counterOf message createdPattern with
                  | .error e => .error e
                  | .ok created =>
                    .ok { subclient_id := subclient_id
                          files_list := fl_sf.1
                          scanned_folder_list := fl_sf.2
                          anomaly_sub_type := anomaly_sub_type
                          severity := define_severity anomaly_sub_type
                          originating_client :=
                            extract_from_regex message (some "") [clientPattern]
                          affected_files_count := affected
                          modified_files_count := modified
                          deleted_files_count := deleted
                          renamed_files_count := renamed
                          created_files_count := created
                          job_start_time := formatUtc job_start_time
                          job_end_time := formatUtc job_end_time
                          job_id := job_id
                          external_link :=
                            extract_from_regex message (some "")
                              [hrefSinglePattern, hrefDoublePattern]
                          description := description }

/-- `get_incident_details(message)`: `None` (no incident) when the anomaly
sub type is missing or `"0"`, or when the job cannot be resolved;
`int(anomaly_sub_type)` may raise `ValueError`; the job id is tried via
the `job [..]` pattern first, then `JobId:[..]`. -/
def get_incident_details (env : Env) (message : String) :
    Except PyErr (Option Details) :=
  match extract_from_regex message (some "0") [anomalySubTypePattern] with
  | none => .ok none
  | some a0 =>
    if a0 = "0" then .ok none
    else
      match pyToInt a0 with
      | none => .error PyErr.valueError
      | some code =>
        let anomaly_sub_type := get_backup_anomaly code
        let job_id0 := extract_from_regex message (some "0") [jobPattern]
        let job_id :=
          if job_id0 = some "0" ∨ job_id0 = none then
            extract_from_regex message (some "0") [jobIdPattern]
          else job_id0
        let description := format_alert_description message
        match get_job_details env job_id with
        | .error e => .error e
        | .ok none => .ok none
        | .ok (some jd) =>
          match assemble_details env message anomaly_sub_type job_id jd description with
          | .error e => .error e
          | .ok det => .ok (some det)

/-- The query record of one `get_events` invocation. -/
def eventsQueryOf (lastRunEpoch now : Int) (show_minor show_major show_critical : String) :
    EventsQuery :=
  { showMinor := show_minor
    showMajor := show_major
    showCritical := show_critical
    fromTime := lastRunEpoch
    toTime := now }

/-- `get_events(...)`: one `GET /events` call; returns the `commservEvents`
list when the response is truthy and carries a truthy `commservEvents`
(so an error body, a missing key, and an empty list all yield `None`). -/
def get_events (env : Env) (lastRunEpoch : Int)
    (show_minor show_major show_critical : String) : Option (List RawEvent) :=
  match env.eventsResp (eventsQueryOf lastRunEpoch env.now show_minor show_major show_critical) with
  | none => none
  | some resp =>
    match resp.commservEvents with
    | none => none
    | some [] => none
    | some evs => some evs

/-- The events query issued by `get_events_list`'s first call
`get_events(action_result, show_critical="true")` — the other two flags
keep their defaults `show_minor="false"`, `show_major="true"`. -/
def criticalCallQuery (lastRunEpoch now : Int) : EventsQuery :=
  eventsQueryOf lastRunEpoch now "false" "true" "true"

/-- The events query issued by `get_events_list`'s second call
`get_events(action_result, show_major="true")` — again the defaults
`show_minor="false"`, `show_critical="true"` fill the rest. -/
def majorCallQuery (lastRunEpoch now : Int) : EventsQuery :=
  eventsQueryOf lastRunEpoch now "false" "true" "true"

/-- Modelled from the spec: the first events query as §4.6 describes it,
"filtered for critical severity" — i.e. requesting only critical events.
Refinement reference only; the code under test is `criticalCallQuery`. -/
def specCriticalOnlyQuery (lastRunEpoch now : Int) : EventsQuery :=
  eventsQueryOf lastRunEpoch now "false" "false" "true"

/-- Modelled from the spec: the second events query as §4.6 describes it,
"filtered for major severity" with "minor severity is never requested" —
i.e. requesting only major events. Refinement reference only; the code
under test is `majorCallQuery`. -/
def specMajorOnlyQuery (lastRunEpoch now : Int) : EventsQuery :=
  eventsQueryOf lastRunEpoch now "false" "true" "false"

/-- `get_events_list`: two `get_events` calls, extending the result list
with each non-`None` outcome (no deduplication). -/
def get_events_list (env : Env) (lastRunEpoch : Int) : List RawEvent :=
  let critical_events := get_events env lastRunEpoch "false" "true" "true"
  let major_events := get_events env lastRunEpoch "false" "true" "true"
  critical_events.getD [] ++ major_events.getD []

/-- The dynamic type of `_max_fetch` / `max_fetch`: the on-poll handler
stores `param.get("container_count", "")`, so either an int or a string. -/
inductive PyVal where
  | vint : Int → PyVal
  | vstr : String → PyVal
deriving DecidableEq, Repr

/-- Python `len(out) == max_fetch`: an int never equals a string. -/
def pyLenEqVal (n : Nat) (v : PyVal) : Bool :=
  match v with
  | .vint m => (n : Int) == m
  | .vstr _ => false

/-- The incident dict `_fetch_incidents` builds per supported event before
merging in the assembled details (`incident.update(det)`); the constant
`None`/`{}` members (`msg`, `msg_id`, `process_id`, `sd`, `occurred`) are
carried as always-`none` fields. `timestamp` is `datetime.utcnow()`
formatted; `event_time` is `datetime.fromtimestamp(event_time)` — local
time, i.e. the epoch shifted by the host's UTC offset. -/
structure Incident where
  facility : String
  msg : Option String
  msg_id : Option String
  process_id : Option String
  host_name : String
  timestamp : String
  occurred : Option String
  event_id : Int
  event_time : String
  originating_program : String
  details : Details
deriving DecidableEq, Repr

/-- The incident construction of `_fetch_incidents` (lines 654–676). -/
def mkIncident (env : Env) (e : RawEvent) (d : Details) : Incident :=
  { facility := Constants.FACILITY
    msg := none
    msg_id := none
    process_id := none
    host_name := "Dummy Domain"
    timestamp := formatUtc env.now
    occurred := none
    event_id := e.id
    event_time := formatUtc (e.timeSource + env.tzOffset)
    originating_program := e.subsystem
    details := d }

/-- The per-event loop of `_fetch_incidents`: skip unsupported event
codes; `det.get(...)` on a `None` result of `get_incident_details`
raises `AttributeError`; keep only File Type / Threat Analysis details;
break when `len(out) == max_fetch`. -/
def fetch_loop (env : Env) (max_fetch : PyVal) :
    List RawEvent → List Incident → Except PyErr (List Incident)
  | [], out => .ok out
  | e :: rest, out =>
    if e.eventCodeString ∈ Constants.SUPPORTED_EVENT_CODES then
      match get_incident_details env e.description with
      | .error err => .error err
      | .ok none => .error PyErr.attributeError
      | .ok (some det) =>
        if det.anomaly_sub_type = "File Type" ∨ det.anomaly_sub_type = "Threat Analysis" then
          let out2 := out ++ [mkIncident env e det]
          if pyLenEqVal out2.length max_fetch then .ok out2
          else fetch_loop env max_fetch rest out2
        else fetch_loop env max_fetch rest out
    else fetch_loop env max_fetch rest out

/-- Reference loop: `fetch_loop` with the `len(out) == max_fetch` break
removed, used to characterise runs on which the cap is inoperative. -/
def fetch_loop_unbounded (env : Env) :
    List RawEvent → List Incident → Except PyErr (List Incident)
  | [], out => .ok out
  | e :: rest, out =>
    if e.eventCodeString ∈ Constants.SUPPORTED_EVENT_CODES then
      match get_incident_details env e.description with
      | .error err => .error err
      | .ok none => .error PyErr.attributeError
      | .ok (some det) =>
        if det.anomaly_sub_type = "File Type" ∨ det.anomaly_sub_type = "Threat Analysis" then
          fetch_loop_unbounded env rest (out ++ [mkIncident env e det])
        else fetch_loop_unbounded env rest out
    else fetch_loop_unbounded env rest out

/-- Stable insertion of `x` after every already-placed element `y` with
`le y x`. -/
def insertSorted {α : Type} (le : α → α → Bool) (x : α) : List α → List α
  | [] => [x]
  | y :: ys => if le y x then y :: insertSorted le x ys else x :: y :: ys

/-- Python's stable `sorted(events, key=...)` as a left fold of stable
insertions (each element lands after all earlier elements it does not
strictly precede). -/
def pySorted {α : Type} (le : α → α → Bool) (l : List α) : List α :=
  l.foldl (fun acc x => insertSorted le x acc) []

/-- `_fetch_incidents(action_result, max_fetch=100)`: the parameter
default 100 is replaced by `self._max_fetch` whenever that is not `None`;
an empty combined events list returns immediately (the — empty — events
list itself); otherwise the events are sorted ascending by `timeSource`
(Python's stable `sorted`) and fed to the loop. -/
def fetch_incidents (env : Env) (lastRunEpoch : Int) (maxFetchState : Option PyVal) :
    Except PyErr (List Incident) :=
  let max_fetch :=
    match maxFetchState with
    | some v => v
    | none => PyVal.vint 100
  let events := get_events_list env lastRunEpoch
  if events.length = 0 then .ok []
  else
    fetch_loop env max_fetch
      (pySorted (fun a b => decide (a.timeSource ≤ b.timeSource)) events) []

/-- Terminal status of the on-poll action handler. -/
inductive PollStatus where
  | success
  | error : PyErr → PollStatus
deriving DecidableEq, Repr

/-- The poll-window resolution of `_handle_on_poll` (lines 879–888): the
loaded watermark is immediately overwritten by the literal
`last_run = None` on line 880, so the 30-day backfill branch always runs.
The backfill is `datetime.utcnow().astimezone() - timedelta(days=30)`:
`astimezone()` re-interprets the naive UTC wall clock as local time, so
its epoch is `now - tzOffset`, minus 30 days of seconds. -/
def resolve_last_run_epoch (env : Env) (stateLastRun : Option Int) : Int :=
  let last_run := stateLastRun
  let last_run : Option Int := none
  match last_run with
  | none => env.now - env.tzOffset - 30 * 86400
  | some lr => lr

/-- `_handle_on_poll(param)`: store `param.get("container_count", "")` as
`_max_fetch`, resolve the poll window, fetch incidents (any exception is
caught and turned into an error status); publishing containers/artifacts
is an external effect modeled as non-failing, after which the handler
sets `APP_SUCCESS`. -/
def handle_on_poll (env : Env) (stateLastRun : Option Int)
    (containerCount : Option PyVal) : PollStatus × List Incident :=
  let maxFetchState := some (containerCount.getD (PyVal.vstr ""))
  let lastRunEpoch := resolve_last_run_epoch env stateLastRun
  match fetch_incidents env lastRunEpoch maxFetchState with
  | .error e => (PollStatus.error e, [])
  | .ok incidents => (PollStatus.success, incidents)

/-- Environment in which every REST request fails at the transport level
(`_make_rest_call` yields an error status and a `None` body). -/
def envBase : Env :=
  { jobResponse := fun _ => none
    subclientResp := fun _ => none
    browseResp := fun _ _ => none
    eventsResp := fun _ => none
    now := 0
    tzOffset := 0 }

/-- A job-details body for job `7`: one record, job start/end times 100
and 200, subclient id `0`. -/
def jobRespSub0 : JobResp :=
  ⟨some 1, some [⟨some ⟨some 100, some 200, some ⟨some 0⟩⟩⟩]⟩

/-- As `jobRespSub0` but the `subclientId` key is absent (Python `None`). -/
def jobRespSubNone : JobResp :=
  ⟨some 1, some [⟨some ⟨some 100, some 200, some ⟨none⟩⟩⟩]⟩

/-- As `jobRespSub0` but with the non-zero subclient id `5`. -/
def jobRespSub5 : JobResp :=
  ⟨some 1, some [⟨some ⟨some 100, some 200, some ⟨some 5⟩⟩⟩]⟩

/-- An alert message carrying a File Type anomaly and job id 7. -/
def msgA : String := "AnomalyType:[2] job [7]"

/-- An alert message with no anomaly sub-type token at all. -/
def msgBad : String := "no anomaly here"

/-- `msgA` with a malformed (non-integer) affected-files counter. -/
def msgC10 : String := "AnomalyType:[2] job [7] SuspiciousFileCount:[abc]"

/-- Environment that resolves job `7` to `jobRespSub0`. -/
def envSub0 : Env :=
  { envBase with jobResponse := fun j => if j = some "7" then some jobRespSub0 else none }

/-- A supported event whose description assembles successfully. -/
def eGood : RawEvent :=
  { eventCodeString := "14:337", timeSource := 2, id := 11,
    subsystem := "prog", description := msgA }

/-- A second copy of the well-formed event at a later time. -/
def eGood2 : RawEvent :=
  { eventCodeString := "14:337", timeSource := 3, id := 12,
    subsystem := "prog", description := msgA }

/-- A supported event whose description yields no anomaly sub type, so the
assembler aborts with `None` for it. -/
def eBad : RawEvent :=
  { eventCodeString := "14:337", timeSource := 1, id := 10,
    subsystem := "prog", description := msgBad }

/-- Poll batch `[eBad, eGood]`. -/
def envC1 : Env :=
  { envSub0 with eventsResp := fun _ => some { commservEvents := some [eBad, eGood] } }

/-- Poll batch `[eGood]` only. -/
def envC1b : Env :=
  { envSub0 with eventsResp := fun _ => some { commservEvents := some [eGood] } }

/-- Poll batch `[eGood, eGood2]`. -/
def envC3 : Env :=
  { envSub0 with eventsResp := fun _ => some { commservEvents := some [eGood, eGood2] } }

/-- One browse row: path `a\b`, display name `b`, display path `/f`. -/
def browseRow : DataResult :=
  { path := some "a\\b", size := some 1, displayName := some "b", displayPath := some "/f" }

/-- A browse body with a single `respType = 0` response over `browseRow`. -/
def browseRespA : BrowseResp :=
  { browseResponses := some
      [{ respType := some 0, browseResult := some { dataResultSet := some [browseRow] } }] }

/-- A subclient body whose content lists the single folder `/dir`. -/
def subclRespA : SubclientResp :=
  { subClientProperties := some [{ content := some [{ path := some "/dir" }] }] }

/-- Environment whose job `7` has a missing (`None`) subclient id, with
live browse and subclient-content endpoints. -/
def envNoneSub : Env :=
  { envBase with
    jobResponse := fun j => if j = some "7" then some jobRespSubNone else none
    subclientResp := fun _ => some subclRespA
    browseResp := fun _ _ => some browseRespA }

/-- `envNoneSub` with the subclient-content endpoint failing, to witness
that the call is actually issued. -/
def envNoneSubDead : Env :=
  { envNoneSub with subclientResp := fun _ => none }

/-- Environment whose job `7` carries the non-zero subclient id `5`. -/
def envSub5 : Env :=
  { envNoneSub with jobResponse := fun j => if j = some "7" then some jobRespSub5 else none }


/-- Supported event at epoch 0 over `msgA`. -/
def eZero : RawEvent :=
  { eventCodeString := "14:337", timeSource := 0, id := 13,
    subsystem := "prog", description := msgA }

/-- `envSub0` on a host one hour east of UTC, polling the single event
`eZero`. -/
def envC7 : Env :=
  { envSub0 with
    tzOffset := 3600
    eventsResp := fun _ => some { commservEvents := some [eZero] } }

/-- Environment whose events endpoint always returns the one-element list
`[eGood]`. -/
def envDup : Env :=
  { envBase with eventsResp := fun _ => some { commservEvents := some [eGood] } }

/-- `envBase` at epoch 1700000000, for the watermark computation. -/
def envC2 : Env := { envBase with now := 1700000000 }

/-- The details `get_incident_details` assembles from `msgA` against
`envSub0` (subclient id `0`, so empty file/folder lists). -/
def detQ : Details :=
  { subclient_id := some 0
    files_list := FilesListVal.entries []
    scanned_folder_list := []
    anomaly_sub_type := "File Type"
    severity := some "high"
    originating_client := some ""
    affected_files_count := none
    modified_files_count := none
    deleted_files_count := none
    renamed_files_count := none
    created_files_count := none
    job_start_time := "1970-01-01 00:01:40"
    job_end_time := "1970-01-01 00:03:20"
    job_id := some "7"
    external_link := some ""
    description := msgA }

/-- The file entry `get_files_list` builds from `browseRow` for the
File Type anomaly. -/
def entryA : FileEntry :=
  { sizeinkb := some 1, folder := "a", filename := some "b",
    fullPath := some (some "/f") }

/-- The details assembled from `msgA` against `envSub5` (subclient `5`,
browse row flattened to its full path). -/
def detSub5 : Details :=
  { detQ with
    subclient_id := some 5
    files_list := FilesListVal.paths [some "/f"]
    scanned_folder_list := ["/dir"] }

/-- The details assembled from `msgA` against `envNoneSub` (missing
subclient id, browse nevertheless attempted). -/
def detNoneSub : Details :=
  { detSub5 with subclient_id := none }

/-- The incident built for `eZero` under `envC7`. -/
def incC7 : Incident := mkIncident envC7 eZero detQ

/-- Test pattern `K:[(.*?)]` for the extractor contract. -/
def patK : DelimPattern := ⟨"K:[", "]"⟩

/-- The lowercased code points of a string, the key under which
`re.IGNORECASE` compares pattern literals. -/
def lowerKey (s : String) : List Nat := s.data.map (fun c => lowerN c.toNat)

/-- Truthiness collapse of one `get_events` call: the `commservEvents`
list when the body and the list are truthy, else nothing. -/
def eventsBodyList : Option EventsResp → List RawEvent
  | none => []
  | some resp =>
    match resp.commservEvents with
    | none => []
    | some [] => []
    | some evs => evs

theorem startsWithCI_congr (p q : List Char)
    (h : p.map (fun c => lowerN c.toNat) = q.map (fun c => lowerN c.toNat)) :
    ∀ rest, startsWithCI p rest = startsWithCI q rest := by
  induction p generalizing q with
  | nil =>
    cases q with
    | nil => intro rest; rfl
    | cons b bs => simp at h
  | cons a ps ih =>
    cases q with
    | nil => simp at h
    | cons b bs =>
      simp only [List.map_cons, List.cons.injEq] at h
      intro rest
      cases rest with
      | nil => rfl
      | cons c cs => simp only [startsWithCI, h.1, ih bs h.2]

theorem lazyCapture_congr (p q : List Char)
    (h : p.map (fun c => lowerN c.toNat) = q.map (fun c => lowerN c.toNat)) :
    ∀ rest, lazyCapture p rest = lazyCapture q rest := by
  intro rest
  induction rest with
  | nil => simp only [lazyCapture, startsWithCI_congr p q h]
  | cons c cs ih => simp only [lazyCapture, startsWithCI_congr p q h, ih]

theorem reSearchList_congr (p p2 q q2 : List Char)
    (hp : p.map (fun c => lowerN c.toNat) = p2.map (fun c => lowerN c.toNat))
    (hq : q.map (fun c => lowerN c.toNat) = q2.map (fun c => lowerN c.toNat)) :
    ∀ msg, reSearchList p q msg = reSearchList p2 q2 msg := by
  have hlen : p.length = p2.length := by
    have := congrArg List.length hp
    simpa using this
  intro msg
  induction msg with
  | nil =>
    simp only [reSearchList, startsWithCI_congr p p2 hp, lazyCapture_congr q q2 hq]
  | cons c cs ih =>
    simp only [reSearchList, startsWithCI_congr p p2 hp, lazyCapture_congr q q2 hq,
      hlen, ih]

theorem get_events_getD (env : Env) (lr : Int) (a b c : String) :
    (get_events env lr a b c).getD [] =
      eventsBodyList (env.eventsResp (eventsQueryOf lr env.now a b c)) := by
  unfold get_events eventsBodyList
  cases env.eventsResp (eventsQueryOf lr env.now a b c) with
  | none => rfl
  | some resp =>
    cases hr : resp.commservEvents with
    | none => simp [hr]
    | some evs => cases evs <;> simp [hr]

theorem filesBranch_zero (env : Env) (t : String) (jid : Option String) :
    filesBranch env t jid (some 0) = .ok (FilesListVal.entries [], []) := rfl

theorem assemble_details_fields
    (env : Env) (message t : String) (jid : Option String) (jd : JobResp)
    (desc : String) (jst jet : Int) (sid : Option Int)
    (flsf : FilesListVal × List String) (det : Details)
    (h1 : jobStartTimeOf jd = .ok jst) (h2 : jobEndTimeOf jd = .ok jet)
    (h3 : subclientIdOf jd = .ok sid)
    (h4 : filesBranch env t jid sid = .ok flsf)
    (h5 : assemble_details env message t jid jd desc = .ok det) :
    det.subclient_id = sid ∧ det.files_list = flsf.1 ∧
    det.scanned_folder_list = flsf.2 ∧ det.anomaly_sub_type = t ∧
    det.severity = define_severity t ∧ det.job_start_time = formatUtc jst ∧
    det.job_end_time = formatUtc jet ∧ det.job_id = jid ∧
    det.description = desc := by
  unfold assemble_details at h5
  simp only [h1, h2, h3, h4] at h5
  cases hc1 : counterOf message affectedPattern with
  | error e => rw [hc1] at h5; exact (Except.noConfusion h5)
  | ok a1 =>
  rw [hc1] at h5
  cases hc2 : counterOf message modifiedPattern with
  | error e => rw [hc2] at h5; exact (Except.noConfusion h5)
  | ok a2 =>
  rw [hc2] at h5
  cases hc3 : counterOf message deletedPattern with
  | error e => rw [hc3] at h5; exact (Except.noConfusion h5)
  | ok a3 =>
  rw [hc3] at h5
  cases hc4 : counterOf message renamedPattern with
  | error e => rw [hc4] at h5; exact (Except.noConfusion h5)
  | ok a4 =>
  rw [hc4] at h5
  cases hc5 : counterOf message createdPattern with
  | error e => rw [hc5] at h5; exact (Except.noConfusion h5)
  | ok a5 =>
  rw [hc5] at h5
  injection h5 with h5
  subst h5
  exact ⟨rfl, rfl, rfl, rfl, rfl, rfl, rfl, rfl, rfl⟩

theorem fetch_loop_no_cap (env : Env) (events : List RawEvent) :
    ∀ out, fetch_loop env (PyVal.vstr "") events out =
      fetch_loop_unbounded env events out := by
  induction events with
  | nil => intro out; rfl
  | cons e rest ih =>
    intro out
    simp only [fetch_loop, fetch_loop_unbounded]
    by_cases hc : e.eventCodeString ∈ Constants.SUPPORTED_EVENT_CODES
    · simp only [if_pos hc]
      cases hg : get_incident_details env e.description with
      | error err => rfl
      | ok det =>
        cases det with
        | none => rfl
        | some d =>
          by_cases hd : d.anomaly_sub_type = "File Type" ∨
              d.anomaly_sub_type = "Threat Analysis"
          · simp only [if_pos hd, pyLenEqVal, if_neg, Bool.false_eq_true, if_false]
            exact ih _
          · simp only [if_neg hd]
            exact ih _
    · simp only [if_neg hc]
      exact ih _

/-- C2: the poll-window lower bound never comes from the persisted
watermark — `last_run = None` on line 880 discards the loaded state, so
every poll (not just the first) uses the 30-day backfill. Evaluated at the
failing input: a stored watermark 1600000000 with the clock at 1700000000
yields the backfill epoch 1697408000, not the stored value. -/
theorem c2_stored_watermark_ignored :
    (∀ (env : Env) (stored : Int),
        resolve_last_run_epoch env (some stored) =
          env.now - env.tzOffset - 30 * 86400) ∧
    resolve_last_run_epoch envC2 (some 1600000000) = 1697408000 ∧
    (1697408000 : Int) ≠ 1600000000 :=
  ⟨fun _ _ => rfl, by decide, by decide⟩

/-- C5 (amended): a transport-level failure of the events-listing call
does not abort the poll — the events are treated as absent and the poll
completes as a successful poll with zero incidents. -/
theorem c5_transport_failure_poll_succeeds (env : Env)
    (stateLastRun : Option Int) (containerCount : Option PyVal)
    (h : ∀ q, env.eventsResp q = none) :
    handle_on_poll env stateLastRun containerCount = (PollStatus.success, []) := by
  unfold handle_on_poll fetch_incidents get_events_list get_events
  simp [h]

/-- C5 (counterexample): in the environment where every events request
fails at the transport level, the poll terminates with `APP_SUCCESS` and
an empty incident list — it does not abort with an error status as the
claim states. -/
theorem c5_counterexample :
    (∀ q, envBase.eventsResp q = none) ∧
    handle_on_poll envBase none none = (PollStatus.success, []) ∧
    (∀ e : PyErr, (handle_on_poll envBase none none).1 ≠ PollStatus.error e) := by
  refine ⟨fun _ => rfl, by decide, ?_⟩
  intro e
  cases e <;> decide

theorem c5_transport_failure_poll_succeeds_witness :
    (∀ q, envBase.eventsResp q = none) ∧
    handle_on_poll envBase none none = (PollStatus.success, []) :=
  ⟨fun _ => rfl, c5_transport_failure_poll_succeeds envBase none none (fun _ => rfl)⟩

/-- C6 (amended): each poll issues exactly two events queries, but with
identical filters — both request major and critical and exclude minor —
and concatenates the two bodies without deduplication. -/
theorem c6_two_identical_event_queries :
    ∀ (env : Env) (lastRunEpoch : Int),
      get_events_list env lastRunEpoch =
        eventsBodyList (env.eventsResp (criticalCallQuery lastRunEpoch env.now)) ++
          eventsBodyList (env.eventsResp (majorCallQuery lastRunEpoch env.now)) ∧
      criticalCallQuery lastRunEpoch env.now = majorCallQuery lastRunEpoch env.now ∧
      (criticalCallQuery lastRunEpoch env.now).showMinor = "false" ∧
      (criticalCallQuery lastRunEpoch env.now).showMajor = "true" ∧
      (majorCallQuery lastRunEpoch env.now).showCritical = "true" := by
  intro env lr
  refine ⟨?_, rfl, rfl, rfl, rfl⟩
  show (get_events env lr "false" "true" "true").getD [] ++
      (get_events env lr "false" "true" "true").getD [] =
    eventsBodyList (env.eventsResp (criticalCallQuery lr env.now)) ++
      eventsBodyList (env.eventsResp (majorCallQuery lr env.now))
  rw [get_events_getD]
  rfl

/-- C6 (counterexample): the first query is not critical-only and the
second is not major-only — both keep `showMajor=true&showCritical=true` —
and a feed returning `[eGood]` to every query is delivered twice. -/
theorem c6_counterexample :
    criticalCallQuery 0 1 ≠ specCriticalOnlyQuery 0 1 ∧
    majorCallQuery 0 1 ≠ specMajorOnlyQuery 0 1 ∧
    (criticalCallQuery 0 1).showMajor = "true" ∧
    (majorCallQuery 0 1).showCritical = "true" ∧
    get_events_list envDup 0 = [eGood, eGood] := by decide

/-- C9: the extractor contract — patterns are tried in order; the first
match returns group 1 stripped; an empty capture still counts as a match;
no match returns the default unchanged; and matching is invariant under
ASCII case changes of the pattern literals (`re.IGNORECASE`). -/
theorem c9_extract_from_regex_contract :
    (∀ message d ps, (∀ p ∈ ps, reSearchCI p message = none) →
        extract_from_regex message d ps = d) ∧
    (∀ message d ps1 p ps2 g,
        (∀ q ∈ ps1, reSearchCI q message = none) → reSearchCI p message = some g →
        extract_from_regex message d (ps1 ++ p :: ps2) = some (pyStrip g)) ∧
    (∀ message d p ps, reSearchCI p message = some "" →
        extract_from_regex message d (p :: ps) = some "") ∧
    (∀ a b msg, lowerKey a.pre = lowerKey b.pre → lowerKey a.post = lowerKey b.post →
        reSearchCI a msg = reSearchCI b msg) := by
  refine ⟨?_, ?_, ?_, ?_⟩
  · intro message d ps h
    induction ps with
    | nil => rfl
    | cons p ps ih =>
      have h0 := h p (by simp)
      simp only [extract_from_regex, h0]
      exact ih (fun q hq => h q (by simp [hq]))
  · intro message d ps1 p ps2 g h1 h2
    induction ps1 with
    | nil => simp only [List.nil_append, extract_from_regex, h2]
    | cons q qs ih =>
      have h0 := h1 q (by simp)
      simp only [List.cons_append, extract_from_regex, h0]
      exact ih (fun r hr => h1 r (by simp [hr]))
  · intro message d p ps h
    simp only [extract_from_regex, h]
    decide
  · intro a b msg h1 h2
    unfold reSearchCI
    rw [reSearchList_congr a.pre.data b.pre.data a.post.data b.post.data h1 h2]

theorem c9_extract_from_regex_contract_witness :
    ((∀ q ∈ [jobIdPattern], reSearchCI q "K:[ v ]" = none) ∧
      reSearchCI patK "K:[ v ]" = some " v ") ∧
    extract_from_regex "K:[ v ]" (some "dflt") ([jobIdPattern] ++ patK :: []) =
      some (pyStrip " v ") :=
  ⟨⟨by intro q hq; rw [List.mem_singleton] at hq; subst hq; decide, by decide⟩,
   c9_extract_from_regex_contract.2.1 "K:[ v ]" (some "dflt") [jobIdPattern] patK []
     " v " (by intro q hq; rw [List.mem_singleton] at hq; subst hq; decide) (by decide)⟩

/-- C10: `if_zero_set_none` raises `ValueError` on every truthy string
that is not a Python integer literal, and is error-free exactly under the
precondition that its input is absent, empty, or an integer literal; a
malformed counter token (`SuspiciousFileCount:[abc]`) therefore raises
out of `get_incident_details`. -/
theorem c10_if_zero_set_none_totality :
    (∀ s : String, s ≠ "" → pyToInt s = none →
        if_zero_set_none (some s) = .error PyErr.valueError) ∧
    (∀ v : Option String,
        (v = none ∨ v = some "" ∨ ∃ s n, v = some s ∧ pyToInt s = some n) →
        ∃ r, if_zero_set_none v = .ok r) ∧
    get_incident_details envSub0 msgC10 = .error PyErr.valueError := by
  refine ⟨?_, ?_, by decide⟩
  · intro s h1 h2
    simp only [if_zero_set_none, if_neg h1, h2]
  · intro v hv
    rcases hv with h | h | ⟨s, n, h, hn⟩
    · subst h; exact ⟨none, rfl⟩
    · subst h; exact ⟨none, rfl⟩
    · subst h
      by_cases h0 : s = ""
      · exact ⟨none, by simp [if_zero_set_none, h0]⟩
      · simp only [if_zero_set_none, if_neg h0, hn]
        by_cases hp : n > 0
        · exact ⟨some s, by simp [hp]⟩
        · exact ⟨none, by simp [hp]⟩

theorem c10_if_zero_set_none_totality_witness :
    (("abc" : String) ≠ "" ∧ pyToInt "abc" = none) ∧
    if_zero_set_none (some "abc") = .error PyErr.valueError :=
  ⟨⟨by decide, by decide⟩,
   c10_if_zero_set_none_totality.1 "abc" (by decide) (by decide)⟩

/-- C1: the assembler does yield "no incident" (`None`) for a bad event
(here: no anomaly sub-type token), but the fetch loop does not tolerate
it — `det.get(...)` on `None` raises `AttributeError`, aborting the whole
batch even though the remaining event (`eGood`, same feed) is processable
on its own. -/
theorem c1_bad_event_aborts_batch :
    get_incident_details envC1 msgBad = .ok none ∧
    fetch_incidents envC1 0 (some (PyVal.vint 100)) = .error PyErr.attributeError ∧
    (fetch_incidents envC1b 0 (some (PyVal.vint 100))).toOption.map List.length =
      some 2 := by
  decide

/-- C3: on the on-poll path with no `container_count` parameter,
`_max_fetch` is the empty string, `len(out) == ""` is always `False`, and
the loop never breaks — the fetch behaves exactly like the uncapped loop,
so the claimed default cap of 100 is inoperative (here: a feed of two
events, doubled by the two identical queries, yields 4 incidents); an
integer `container_count` does cap the result. -/
theorem c3_default_cap_inoperative :
    (∀ n : Nat, pyLenEqVal n (PyVal.vstr "") = false) ∧
    (∀ (env : Env) (events : List RawEvent) (out : List Incident),
        fetch_loop env (PyVal.vstr "") events out =
          fetch_loop_unbounded env events out) ∧
    (handle_on_poll envC3 none none).2.length = 4 ∧
    (handle_on_poll envC3 none (some (PyVal.vint 1))).2.length = 1 := by
  refine ⟨fun n => rfl, ?_, by decide, by decide⟩
  intro env events out
  exact fetch_loop_no_cap env events out

/-- C4: for an assembled incident of category File Type or Threat
Analysis with a non-zero subclient id, `files_list` is the flat list of
the browse entries' `fullPath` values (size and folder detail discarded);
and a browse file entry carries the `fullPath` key exactly when the
category is File Type. -/
theorem c4_files_list_flattened :
    (∀ (env : Env) (message t : String) (jid : Option String) (jd : JobResp)
        (desc : String) (jst jet : Int) (sid : Option Int)
        (fl : List FileEntry) (sf : List String) (paths : List (Option String))
        (det : Details),
        jobStartTimeOf jd = .ok jst → jobEndTimeOf jd = .ok jet →
        subclientIdOf jd = .ok sid → pyNeqZero sid = true →
        (t = Constants.ANOMALY_TYPE_2 ∨ t = Constants.ANOMALY_TYPE_3) →
        fetch_file_details env jid sid t = .ok (fl, sf) →
        listFullPaths fl = .ok paths →
        assemble_details env message t jid jd desc = .ok det →
        det.files_list = FilesListVal.paths paths ∧
        det.scanned_folder_list = sf) ∧
    (∀ (t : String) (d : DataResult) (f : FileEntry),
        mkFileEntry t d = .ok f →
        (f.fullPath ≠ none ↔ t = Constants.ANOMALY_TYPE_2)) := by
  constructor
  · intro env message t jid jd desc jst jet sid fl sf paths det h1 h2 h3 hz ht hf hp h5
    have hcond : t = Constants.ANOMALY_TYPE_3 ∨ t = Constants.ANOMALY_TYPE_2 := by
      rcases ht with h | h
      · exact Or.inr h
      · exact Or.inl h
    have hfb : filesBranch env t jid sid = .ok (FilesListVal.paths paths, sf) := by
      simp only [filesBranch, hz, hf, hcond, hp, if_true]
    have hall := assemble_details_fields env message t jid jd desc jst jet sid
      (FilesListVal.paths paths, sf) det h1 h2 h3 hfb h5
    exact ⟨hall.2.1, hall.2.2.1⟩
  · intro t d f h
    cases hp : d.path with
    | none => unfold mkFileEntry at h; rw [hp] at h; exact (Except.noConfusion h)
    | some fp =>
      unfold mkFileEntry at h
      rw [hp] at h
      injection h with h
      subst h
      by_cases ht : t = Constants.ANOMALY_TYPE_2 <;> simp [ht]

theorem c4_files_list_flattened_witness :
    (jobStartTimeOf jobRespSub5 = .ok 100 ∧ jobEndTimeOf jobRespSub5 = .ok 200 ∧
      subclientIdOf jobRespSub5 = .ok (some 5) ∧ pyNeqZero (some 5) = true ∧
      fetch_file_details envSub5 (some "7") (some 5) "File Type" =
        .ok ([entryA], ["/dir"]) ∧
      listFullPaths [entryA] = .ok [some "/f"] ∧
      assemble_details envSub5 msgA "File Type" (some "7") jobRespSub5 msgA =
        .ok detSub5) ∧
    (detSub5.files_list = FilesListVal.paths [some "/f"] ∧
      detSub5.scanned_folder_list = ["/dir"]) :=
  ⟨⟨by decide, by decide, by decide, by decide, by decide, by decide, by decide⟩,
   c4_files_list_flattened.1 envSub5 msgA "File Type" (some "7") jobRespSub5 msgA
     100 200 (some 5) [entryA] ["/dir"] [some "/f"] detSub5
     (by decide) (by decide) (by decide) (by decide) (Or.inl rfl)
     (by decide) (by decide) (by decide)⟩

/-- C7 (amended): the generated timestamp and the job start/end times
render through `utcfromtimestamp`/`utcnow` — UTC regardless of the host
timezone — while `event_time` renders through `fromtimestamp`, i.e. local
time (the epoch shifted by the host's UTC offset), coinciding with UTC
only on a zero-offset host. -/
theorem c7_timestamp_rendering :
    (∀ (env : Env) (e : RawEvent) (d : Details),
        (mkIncident env e d).timestamp = formatUtc env.now ∧
        (mkIncident env e d).event_time = formatUtc (e.timeSource + env.tzOffset)) ∧
    (∀ (env : Env) (message t : String) (jid : Option String) (jd : JobResp)
        (desc : String) (jst jet : Int) (sid : Option Int)
        (flsf : FilesListVal × List String) (det : Details),
        jobStartTimeOf jd = .ok jst → jobEndTimeOf jd = .ok jet →
        subclientIdOf jd = .ok sid → filesBranch env t jid sid = .ok flsf →
        assemble_details env message t jid jd desc = .ok det →
        det.job_start_time = formatUtc jst ∧ det.job_end_time = formatUtc jet) ∧
    (∀ (env : Env) (e : RawEvent) (d : Details), env.tzOffset = 0 →
        (mkIncident env e d).event_time = formatUtc e.timeSource) := by
  refine ⟨fun env e d => ⟨rfl, rfl⟩, ?_, ?_⟩
  · intro env message t jid jd desc jst jet sid flsf det h1 h2 h3 h4 h5
    have hall := assemble_details_fields env message t jid jd desc jst jet sid
      flsf det h1 h2 h3 h4 h5
    exact ⟨hall.2.2.2.2.2.1, hall.2.2.2.2.2.2.1⟩
  · intro env e d h
    show formatUtc (e.timeSource + env.tzOffset) = formatUtc e.timeSource
    rw [h, add_zero]

/-- C7 (counterexample): on a host one hour east of UTC, the incident
assembled for an event at epoch 0 carries
`event_time = "1970-01-01 01:00:00"`, not the UTC rendering
`"1970-01-01 00:00:00"` of its epoch — while the generated timestamp and
job start time do render in UTC. -/
theorem c7_event_time_counterexample :
    fetch_incidents envC7 0 (some (PyVal.vint 100)) = .ok [incC7, incC7] ∧
    incC7.event_time = "1970-01-01 01:00:00" ∧
    formatUtc eZero.timeSource = "1970-01-01 00:00:00" ∧
    incC7.event_time ≠ formatUtc eZero.timeSource ∧
    incC7.timestamp = formatUtc envC7.now ∧
    incC7.details.job_start_time = formatUtc 100 := by
  decide

theorem c7_timestamp_rendering_witness :
    (jobStartTimeOf jobRespSub0 = .ok 100 ∧ jobEndTimeOf jobRespSub0 = .ok 200 ∧
      subclientIdOf jobRespSub0 = .ok (some 0) ∧
      filesBranch envSub0 "File Type" (some "7") (some 0) =
        .ok (FilesListVal.entries [], []) ∧
      assemble_details envSub0 msgA "File Type" (some "7") jobRespSub0 msgA =
        .ok detQ) ∧
    detQ.job_start_time = formatUtc 100 ∧ detQ.job_end_time = formatUtc 200 :=
  ⟨⟨by decide, by decide, by decide, by decide, by decide⟩,
   c7_timestamp_rendering.2.1 envSub0 msgA "File Type" (some "7") jobRespSub0 msgA
     100 200 (some 0) (FilesListVal.entries [], []) detQ
     (by decide) (by decide) (by decide) (by decide) (by decide)⟩

/-- C8 (amended): only a subclient id equal to the integer `0` skips the
browse: then both lists are empty and the assembly is independent of the
browse/subclient endpoints (no REST call issued). A missing (`None`)
subclient id — though falsy in Python — takes the browse branch, because
`None != 0` is `True`. -/
theorem c8_zero_subclient_only :
    (∀ (env : Env) (t : String) (jid : Option String),
        filesBranch env t jid (some 0) = .ok (FilesListVal.entries [], [])) ∧
    (∀ (env env2 : Env) (message t : String) (jid : Option String) (jd : JobResp)
        (desc : String), subclientIdOf jd = .ok (some 0) →
        assemble_details env message t jid jd desc =
          assemble_details env2 message t jid jd desc) ∧
    (∀ (env : Env) (message t : String) (jid : Option String) (jd : JobResp)
        (desc : String) (jst jet : Int) (det : Details),
        jobStartTimeOf jd = .ok jst → jobEndTimeOf jd = .ok jet →
        subclientIdOf jd = .ok (some 0) →
        assemble_details env message t jid jd desc = .ok det →
        det.files_list = FilesListVal.entries [] ∧
        det.scanned_folder_list = []) := by
  refine ⟨fun env t jid => rfl, ?_, ?_⟩
  · intro env env2 message t jid jd desc h
    unfold assemble_details
    simp only [h, filesBranch_zero]
  · intro env message t jid jd desc jst jet det h1 h2 h3 h5
    have hall := assemble_details_fields env message t jid jd desc jst jet (some 0)
      (FilesListVal.entries [], []) det h1 h2 h3 (filesBranch_zero env t jid) h5
    exact ⟨hall.2.1, hall.2.2.1⟩

/-- C8 (counterexample): a resolved job whose `subclientId` is missing
(Python `None`, falsy) still browses: the assembled incident has
non-empty `files_list` and `scanned_folder_list`, and killing the
subclient-content endpoint changes the outcome into an `AttributeError` —
so the calls are issued, contradicting the claim for falsy-but-not-zero
subclient ids. -/
theorem c8_none_subclient_counterexample :
    subclientIdOf jobRespSubNone = .ok none ∧
    pyNeqZero none = true ∧
    get_incident_details envNoneSub msgA = .ok (some detNoneSub) ∧
    detNoneSub.subclient_id = none ∧
    detNoneSub.files_list ≠ FilesListVal.entries [] ∧
    detNoneSub.scanned_folder_list ≠ [] ∧
    get_incident_details envNoneSubDead msgA = .error PyErr.attributeError := by
  decide

theorem c8_zero_subclient_only_witness :
    subclientIdOf jobRespSub0 = .ok (some 0) ∧
    assemble_details envSub0 msgA "File Type" (some "7") jobRespSub0 msgA =
      assemble_details envNoneSubDead msgA "File Type" (some "7") jobRespSub0 msgA ∧
    (detQ.files_list = FilesListVal.entries [] ∧ detQ.scanned_folder_list = []) :=
  ⟨by decide,
   c8_zero_subclient_only.2.1 envSub0 envNoneSubDead msgA "File Type" (some "7")
     jobRespSub0 msgA (by decide),
   c8_zero_subclient_only.2.2 envSub0 msgA "File Type" (some "7") jobRespSub0 msgA
     100 200 detQ (by decide) (by decide) (by decide) (by decide)⟩
